import Mathlib

/-!
Shallow embedding of the olist feature-derivation pipeline (src/order.py).

Tables are lists of structures, one structure per relevant column set.
A nullable float cell (pandas NaN) is an `Option ℚ`; non-NaN floats are
modelled as exact rationals.  Raw timestamp cells are a three-way sum
(`valid` / `malformed` / `missing`) so that `pd.to_datetime(..., errors="coerce")`
can be modelled as a total function into `Option ℤ` (seconds since epoch).

The scalar great-circle distance `haversine_distance` is imported by the
source from `olist.utils`, which is external to the repository core; it is
modelled as an explicit function parameter `hav : ℚ → ℚ → ℚ → ℚ → ℚ`
(its NaN-propagation on null coordinates is made explicit at the call site,
matching float semantics where any NaN coordinate yields a NaN distance).

Pandas `groupby` (default `sort=True`) produces one output row per distinct
key, keys sorted ascending; this is `groupKeys` below, using a lexicographic
code-point order on strings (the order Python uses on `str`).
Pandas `merge(..., how="left")` keeps left rows in order and emits one output
row per matching right row (right-table order), or a single row with null
right columns when there is no match; this is `leftMergeStep` below.
-/

namespace Olist

/-- A raw timestamp cell of the orders CSV: a parseable date-time (held as
whole seconds since an epoch), a malformed string, or a missing value. -/
inductive RawTimestamp where
  | valid (seconds : ℤ)
  | malformed
  | missing
deriving DecidableEq

/-- Model of `pd.to_datetime(col, errors="coerce")` on one cell: parseable values
parse, malformed and missing values coerce to null (NaT); never raises. -/
def to_datetime : RawTimestamp → Option ℤ
  | .valid s => some s
  | .malformed => none
  | .missing => none

/-- A row of the `orders` table (only the columns the source reads). -/
structure OrderRow where
  order_id : String
  customer_id : String
  order_status : String
  order_purchase_timestamp : RawTimestamp
  order_delivered_customer_date : RawTimestamp
  order_estimated_delivery_date : RawTimestamp
deriving DecidableEq

/-- A row of the output of `Order.get_wait_time`. -/
structure WaitRow where
  order_id : String
  wait_time : Option ℚ
  expected_wait_time : Option ℚ
  delay_vs_expected : Option ℚ
  order_status : String
deriving DecidableEq

/-- Model of `(a - b).dt.total_seconds() / 86400` on one row: null (NaT) operands
propagate to null, otherwise the elapsed days as an exact fraction. -/
def diffDays : Option ℤ → Option ℤ → Option ℚ
  | some a, some b => some (((a - b : ℤ) : ℚ) / 86400)
  | _, _ => none

/-- Model of `np.where(delay.isna(), np.nan, np.where(delay > 0, delay, 0.0))` where
`delay = wait_time - expected_wait_time` (order.py lines 53-60): null if
either operand is null; else the positive part of the difference. -/
def delayClamp : Option ℚ → Option ℚ → Option ℚ
  | some w, some e => some (if w - e > 0 then w - e else 0)
  | _, _ => none

/-- The per-row computation of `Order.get_wait_time` (order.py lines 36-60):
coerce the three timestamps, derive wait_time, expected_wait_time and
delay_vs_expected. -/
def waitRowOf (r : OrderRow) : WaitRow :=
  let p := to_datetime r.order_purchase_timestamp
  let d := to_datetime r.order_delivered_customer_date
  let e := to_datetime r.order_estimated_delivery_date
  let w := diffDays d p
  let ew := diffDays e p
  { order_id := r.order_id
    wait_time := w
    expected_wait_time := ew
    delay_vs_expected := delayClamp w ew
    order_status := r.order_status }

/-- Embedding of `Order.get_wait_time` (order.py lines 15-62): optionally restrict to
rows with order_status "delivered", then derive the wait-time columns. -/
def Order.get_wait_time (orders : List OrderRow) (is_delivered : Bool) : List WaitRow :=
  (if is_delivered then orders.filter (fun r => r.order_status == "delivered")
   else orders).map waitRowOf

/-- A row of the `order_reviews` table (columns the source reads); a missing
score is null. -/
structure ReviewRow where
  order_id : String
  review_score : Option ℚ
deriving DecidableEq

/-- A row of the output of `Order.get_review_score`. -/
structure ReviewFeature where
  order_id : String
  dim_is_five_star : ℤ
  dim_is_one_star : ℤ
  review_score : Option ℚ
deriving DecidableEq

/-- The per-row computation of `Order.get_review_score` (order.py lines
75-76): `(review_score == 5).astype(int)` and `(review_score == 1).astype(int)`;
a null score compares unequal to both 5 and 1. -/
def reviewRowOf (r : ReviewRow) : ReviewFeature :=
  { order_id := r.order_id
    dim_is_five_star := if r.review_score = some 5 then 1 else 0
    dim_is_one_star := if r.review_score = some 1 then 1 else 0
    review_score := r.review_score }

/-- Embedding of `Order.get_review_score` (order.py lines 66-78): one output row per
input review row, no deduplication. -/
def Order.get_review_score (reviews : List ReviewRow) : List ReviewFeature :=
  reviews.map reviewRowOf

/-- Lexicographic code-point comparison of char lists (the order Python and
pandas use on strings). -/
def charListLe : List Char → List Char → Bool
  | [], _ => true
  | _ :: _, [] => false
  | a :: as, b :: bs =>
      if a.val < b.val then true
      else if b.val < a.val then false
      else charListLe as bs

/-- Lexicographic order on strings, kernel-computable. -/
def strLe (a b : String) : Bool := charListLe a.data b.data

/-- The group keys of a pandas `groupby` over a string column (default
`sort=True`): the distinct keys in ascending order. -/
def groupKeys (l : List String) : List String :=
  List.insertionSort (fun a b => strLe a b) l.dedup

/-- A row of the `order_items` table (columns the source reads). -/
structure ItemRow where
  order_id : String
  seller_id : String
  price : Option ℚ
  freight_value : Option ℚ
deriving DecidableEq

/-- A row of the output of `Order.get_number_items`. -/
structure ItemCount where
  order_id : String
  number_of_items : ℕ
deriving DecidableEq

/-- Embedding of `Order.get_number_items` (order.py lines 81-94): group item lines by
order_id and count the rows of each group (`groupby.size()`). -/
def Order.get_number_items (items : List ItemRow) : List ItemCount :=
  (groupKeys (items.map (fun i => i.order_id))).map fun k =>
    { order_id := k
      number_of_items := (items.filter (fun i => i.order_id == k)).length }

/-- A row of the output of `Order.get_number_sellers`. -/
structure SellerCount where
  order_id : String
  number_of_sellers : ℕ
deriving DecidableEq

/-- Embedding of `Order.get_number_sellers` (order.py lines 97-110): group item lines by
order_id and count distinct seller_id values per group (`nunique`). -/
def Order.get_number_sellers (items : List ItemRow) : List SellerCount :=
  (groupKeys (items.map (fun i => i.order_id))).map fun k =>
    { order_id := k
      number_of_sellers :=
        ((items.filter (fun i => i.order_id == k)).map (fun i => i.seller_id)).dedup.length }

/-- A row of the output of `Order.get_price_and_freight`. -/
structure PriceFreight where
  order_id : String
  price : ℚ
  freight_value : ℚ
deriving DecidableEq

/-- Embedding of `Order.get_price_and_freight` (order.py lines 113-125): group item lines
by order_id and sum price and freight_value per group (pandas group sums
skip nulls; an all-null group sums to 0). -/
def Order.get_price_and_freight (items : List ItemRow) : List PriceFreight :=
  (groupKeys (items.map (fun i => i.order_id))).map fun k =>
    { order_id := k
      price := (((items.filter (fun i => i.order_id == k)).map (fun i => i.price)).filterMap id).sum
      freight_value :=
        (((items.filter (fun i => i.order_id == k)).map (fun i => i.freight_value)).filterMap id).sum }

/-- A row of the `customers` table.  The zip column is
customer_zip_code_prefix in the CSV; the source renames it to customer_zip
(order.py line 150), and that name is used here throughout. -/
structure CustomerRow where
  customer_id : String
  customer_zip : ℕ
deriving DecidableEq

/-- A row of the `sellers` table.  The zip column is seller_zip_code_prefix
in the CSV, renamed by the source to seller_zip (order.py line 156). -/
structure SellerRow where
  seller_id : String
  seller_zip : ℕ
deriving DecidableEq

/-- A row of the `geolocation` table (zip column: geolocation_zip_code_prefix). -/
structure GeoRow where
  geo_zip : ℕ
  geolocation_lat : ℚ
  geolocation_lng : ℚ
deriving DecidableEq

/-- One entry of the zip → mean coordinate lookup (`geo_zip` in the source). -/
structure GeoZip where
  zip : ℕ
  lat : ℚ
  lng : ℚ
deriving DecidableEq

/-- Group keys of a `groupby` over the numeric zip column (distinct keys,
ascending). -/
def groupKeysNat (l : List ℕ) : List ℕ :=
  List.insertionSort (fun a b => a ≤ b) l.dedup

/-- Mean of a non-empty list of rationals. -/
def listMean (l : List ℚ) : ℚ := l.sum / l.length

/-- Step 1 of `Order.get_distance_seller_customer` (order.py lines 141-145):
summarise geolocation rows to one mean (lat, lng) per zip prefix. -/
def geoZipSummary (geo : List GeoRow) : List GeoZip :=
  (groupKeysNat (geo.map (fun r => r.geo_zip))).map fun z =>
    let g := geo.filter (fun r => r.geo_zip == z)
    { zip := z
      lat := listMean (g.map (fun r => r.geolocation_lat))
      lng := listMean (g.map (fun r => r.geolocation_lng)) }

/-- An order joined to its customer zip (step 2, order.py lines 148-151);
the zip is null when the left merge finds no matching customer. -/
structure OrderCustomer where
  order_id : String
  customer_zip : Option ℕ
deriving DecidableEq

/-- Step 2: `orders.merge(customers, on="customer_id", how="left")`. -/
def orderCustomerTable (orders : List OrderRow) (customers : List CustomerRow) :
    List OrderCustomer :=
  orders.flatMap fun o =>
    match customers.filter (fun c => c.customer_id == o.customer_id) with
    | [] => [{ order_id := o.order_id, customer_zip := none }]
    | ms => ms.map fun c => { order_id := o.order_id, customer_zip := some c.customer_zip }

/-- An item line joined to its seller zip (step 3, order.py lines 154-157). -/
structure OrderSeller where
  order_id : String
  seller_id : String
  seller_zip : Option ℕ
deriving DecidableEq

/-- Step 3: `items.merge(sellers, on="seller_id", how="left")`. -/
def orderSellerTable (items : List ItemRow) (sellers : List SellerRow) :
    List OrderSeller :=
  items.flatMap fun i =>
    match sellers.filter (fun s => s.seller_id == i.seller_id) with
    | [] => [{ order_id := i.order_id, seller_id := i.seller_id, seller_zip := none }]
    | ms => ms.map fun s =>
        { order_id := i.order_id, seller_id := i.seller_id, seller_zip := some s.seller_zip }

/-- An item line with both zips attached (step 4, order.py line 160). -/
structure ZipPairRow where
  order_id : String
  seller_id : String
  seller_zip : Option ℕ
  customer_zip : Option ℕ
deriving DecidableEq

/-- Step 4: attach the customer zip of the order to every order-seller row
(`merge(..., on="order_id", how="left")`). -/
def zipPairTable (orders : List OrderRow) (customers : List CustomerRow)
    (sellers : List SellerRow) (items : List ItemRow) : List ZipPairRow :=
  let oc := orderCustomerTable orders customers
  (orderSellerTable items sellers).flatMap fun s =>
    match oc.filter (fun c => c.order_id == s.order_id) with
    | [] => [{ order_id := s.order_id, seller_id := s.seller_id,
               seller_zip := s.seller_zip, customer_zip := none }]
    | ms => ms.map fun c =>
        { order_id := s.order_id, seller_id := s.seller_id,
          seller_zip := s.seller_zip, customer_zip := c.customer_zip }

/-- Left merge of a zip key against the geolocation summary (steps 5-6,
order.py lines 163-182): a null key matches nothing (pandas NaN keys never
match), an unresolvable zip yields no match; either way the looked-up
coordinates are null.  `geoZipSummary` has one row per zip, so the merge is
a lookup of the first (unique) matching row. -/
def zipLookup (g : List GeoZip) : Option ℕ → Option GeoZip
  | none => none
  | some z => (g.filter (fun r => r.zip == z)).head?

/-- An (order, item-line) row with resolved coordinates and distance
(step 7, order.py lines 185-191). -/
structure DistRow where
  order_id : String
  seller_lng : Option ℚ
  seller_lat : Option ℚ
  customer_lng : Option ℚ
  customer_lat : Option ℚ
  distance_km : Option ℚ
deriving DecidableEq

/-- Steps 1-7 of `Order.get_distance_seller_customer`: the per-item-line
frame with its distance_km column.  `hav` is the external scalar
`haversine_distance(lng1, lat1, lng2, lat2)`; a null coordinate propagates
to a null distance, as NaN does through float arithmetic. -/
def distanceRows (orders : List OrderRow) (customers : List CustomerRow)
    (sellers : List SellerRow) (items : List ItemRow) (geo : List GeoRow)
    (hav : ℚ → ℚ → ℚ → ℚ → ℚ) : List DistRow :=
  let geoZ := geoZipSummary geo
  (zipPairTable orders customers sellers items).map fun r =>
    let sg := zipLookup geoZ r.seller_zip
    let cg := zipLookup geoZ r.customer_zip
    { order_id := r.order_id
      seller_lng := sg.map (fun g => g.lng)
      seller_lat := sg.map (fun g => g.lat)
      customer_lng := cg.map (fun g => g.lng)
      customer_lat := cg.map (fun g => g.lat)
      distance_km :=
        match sg, cg with
        | some sgeo, some cgeo => some (hav sgeo.lng sgeo.lat cgeo.lng cgeo.lat)
        | _, _ => none }

/-- A row of the output of `Order.get_distance_seller_customer`. -/
structure DistanceFeature where
  order_id : String
  distance_seller_customer : Option ℚ
deriving DecidableEq

/-- Pandas `groupby(...).mean()` over a nullable column: nulls are skipped;
the mean of the non-null values, or null when every value of the group is
null. -/
def meanSkipNull (l : List (Option ℚ)) : Option ℚ :=
  let vs := l.filterMap id
  if vs = [] then none else some (vs.sum / vs.length)

/-- Embedding of `Order.get_distance_seller_customer` (order.py lines 128-200, step 8):
average distance_km per order_id. -/
def Order.get_distance_seller_customer (orders : List OrderRow)
    (customers : List CustomerRow) (sellers : List SellerRow)
    (items : List ItemRow) (geo : List GeoRow)
    (hav : ℚ → ℚ → ℚ → ℚ → ℚ) : List DistanceFeature :=
  let rows := distanceRows orders customers sellers items geo hav
  (groupKeys (rows.map (fun r => r.order_id))).map fun k =>
    { order_id := k
      distance_seller_customer :=
        meanSkipNull ((rows.filter (fun r => r.order_id == k)).map (fun r => r.distance_km)) }

/-- The full dataset store consumed by the pipeline (`self.data`): the six
tables the extractors read. -/
structure Datasets where
  orders : List OrderRow
  order_reviews : List ReviewRow
  order_items : List ItemRow
  customers : List CustomerRow
  sellers : List SellerRow
  geolocation : List GeoRow
deriving DecidableEq

/-- A row of the assembled training frame.  Every joined column is nullable:
a field is `none` when the corresponding left merge found no match (or the
matched value was itself null).  The distance field exists in the frame only
when the distance merge ran; otherwise it stays `none` and is not a column
of the output (see `trainingCols`). -/
structure TrainingRow where
  order_id : String
  wait_time : Option ℚ
  expected_wait_time : Option ℚ
  delay_vs_expected : Option ℚ
  order_status : String
  dim_is_five_star : Option ℤ
  dim_is_one_star : Option ℤ
  review_score : Option ℚ
  number_of_items : Option ℕ
  number_of_sellers : Option ℕ
  price : Option ℚ
  freight_value : Option ℚ
  distance_seller_customer : Option ℚ
deriving DecidableEq, Inhabited

/-- A wait-time row viewed as a training row, before any feature merge:
all joined columns are absent (null). -/
def liftWaitRow (w : WaitRow) : TrainingRow :=
  { order_id := w.order_id
    wait_time := w.wait_time
    expected_wait_time := w.expected_wait_time
    delay_vs_expected := w.delay_vs_expected
    order_status := w.order_status
    dim_is_five_star := none
    dim_is_one_star := none
    review_score := none
    number_of_items := none
    number_of_sellers := none
    price := none
    freight_value := none
    distance_seller_customer := none }

/-- One `merge(..., on="order_id", how="left")` of a feature table onto the
accumulating training frame: each left row is replicated once per matching
right row (right-table order) with the right columns copied in by `upd`, or
kept as-is (right columns null) when nothing matches. -/
def leftMergeStep {β : Type} [DecidableEq β] (rows : List TrainingRow) (right : List β)
    (key : β → String) (upd : TrainingRow → β → TrainingRow) : List TrainingRow :=
  rows.flatMap fun r =>
    let ms := right.filter (fun m => key m == r.order_id)
    if ms = [] then [r] else ms.map (upd r)

/-- The merge chain of `Order.get_training_data` (order.py lines 212-220):
wait-time frame, then review, item-count, seller-count, price/freight and
(optionally) distance features, all left-joined on order_id.  This is the
frame right before `dropna()`. -/
def assembledRows (d : Datasets) (hav : ℚ → ℚ → ℚ → ℚ → ℚ)
    (is_delivered : Bool) (with_distance : Bool) : List TrainingRow :=
  let df := (Order.get_wait_time d.orders is_delivered).map liftWaitRow
  let df := leftMergeStep df (Order.get_review_score d.order_reviews)
    (fun r => r.order_id)
    (fun t r => { t with dim_is_five_star := some r.dim_is_five_star
                         dim_is_one_star := some r.dim_is_one_star
                         review_score := r.review_score })
  let df := leftMergeStep df (Order.get_number_items d.order_items)
    (fun r => r.order_id)
    (fun t r => { t with number_of_items := some r.number_of_items })
  let df := leftMergeStep df (Order.get_number_sellers d.order_items)
    (fun r => r.order_id)
    (fun t r => { t with number_of_sellers := some r.number_of_sellers })
  let df := leftMergeStep df (Order.get_price_and_freight d.order_items)
    (fun r => r.order_id)
    (fun t r => { t with price := some r.price, freight_value := some r.freight_value })
  if with_distance then
    leftMergeStep df
      (Order.get_distance_seller_customer d.orders d.customers d.sellers
        d.order_items d.geolocation hav)
      (fun r => r.order_id)
      (fun t r => { t with distance_seller_customer := r.distance_seller_customer })
  else df

/-- Model of `dropna()` on the assembled frame (order.py line 223): a row is kept
iff every cell of every column present in the frame is non-null.  order_id
and order_status are string columns and are non-null by construction; the
distance column is part of the frame only when the distance merge ran. -/
def TrainingRow.complete (with_distance : Bool) (r : TrainingRow) : Bool :=
  r.wait_time.isSome && r.expected_wait_time.isSome && r.delay_vs_expected.isSome &&
  r.dim_is_five_star.isSome && r.dim_is_one_star.isSome && r.review_score.isSome &&
  r.number_of_items.isSome && r.number_of_sellers.isSome && r.price.isSome &&
  r.freight_value.isSome && (!with_distance || r.distance_seller_customer.isSome)

/-- The output column list of `Order.get_training_data` (order.py lines
226-241): a fixed order, with distance_seller_customer appended exactly
when the flag is set. -/
def trainingCols (with_distance : Bool) : List String :=
  let cols := ["order_id", "wait_time", "expected_wait_time", "delay_vs_expected",
    "order_status", "dim_is_five_star", "dim_is_one_star", "review_score",
    "number_of_items", "number_of_sellers", "price", "freight_value"]
  if with_distance then cols ++ ["distance_seller_customer"] else cols

/-- A data frame as returned by the assembler: its column list (in order)
and its rows. -/
structure TrainingFrame where
  cols : List String
  rows : List TrainingRow
deriving DecidableEq

/-- Embedding of `Order.get_training_data` (order.py lines 202-243): merge all features
onto the wait-time frame, drop every row containing any null, and return
the columns in the fixed order. -/
def Order.get_training_data (d : Datasets) (hav : ℚ → ℚ → ℚ → ℚ → ℚ)
    (is_delivered : Bool) (with_distance_seller_customer : Bool) : TrainingFrame :=
  { cols := trainingCols with_distance_seller_customer
    rows := (assembledRows d hav is_delivered with_distance_seller_customer).filter
      (TrainingRow.complete with_distance_seller_customer) }

/-! Concrete sample tables, used to instantiate the theorems below on
closed inputs. -/

/-- A delivered order with consistent, parseable timestamps. -/
def exOrder1 : OrderRow :=
  { order_id := "o1", customer_id := "c1", order_status := "delivered",
    order_purchase_timestamp := .valid 0,
    order_delivered_customer_date := .valid 129600,
    order_estimated_delivery_date := .valid 172800 }

/-- A delivered order whose delivered timestamp is malformed. -/
def exOrder2 : OrderRow :=
  { order_id := "o2", customer_id := "c2", order_status := "delivered",
    order_purchase_timestamp := .valid 0,
    order_delivered_customer_date := .malformed,
    order_estimated_delivery_date := .valid 172800 }

/-- A sample dataset store: two orders, one review, two item lines of o1
from two sellers, one resolvable customer and seller zip. -/
def exData : Datasets :=
  { orders := [exOrder1, exOrder2]
    order_reviews := [{ order_id := "o1", review_score := some 5 }]
    order_items := [{ order_id := "o1", seller_id := "s1", price := some 10, freight_value := some 2 },
                    { order_id := "o1", seller_id := "s2", price := some 5, freight_value := some 1 }]
    customers := [{ customer_id := "c1", customer_zip := 100 }]
    sellers := [{ seller_id := "s1", seller_zip := 200 }]
    geolocation := [{ geo_zip := 100, geolocation_lat := 1, geolocation_lng := 2 },
                    { geo_zip := 200, geolocation_lat := 3, geolocation_lng := 4 }] }

/-- A concrete stand-in for the external scalar distance function. -/
def exHav : ℚ → ℚ → ℚ → ℚ → ℚ := fun _ _ _ _ => 7

/-- The sample dataset store with two review rows sharing order o1. -/
def exDataDup : Datasets :=
  { exData with
      order_reviews := [{ order_id := "o1", review_score := some 5 },
                        { order_id := "o1", review_score := some 1 }] }

end Olist

namespace Olist

/-! Helper lemmas about the table combinators. -/

/-- Grouping keeps exactly the keys of the column. -/
theorem mem_groupKeys {a : String} {l : List String} : a ∈ groupKeys l ↔ a ∈ l := by
  unfold groupKeys
  rw [(List.perm_insertionSort _ _).mem_iff, List.mem_dedup]

/-- The group keys are pairwise distinct. -/
theorem nodup_groupKeys (l : List String) : (groupKeys l).Nodup :=
  (List.perm_insertionSort _ _).nodup_iff.mpr (List.nodup_dedup l)

/-- The clamp `delayClamp` is null exactly when one of its operands is. -/
theorem delayClamp_eq_none_iff (w e : Option ℚ) :
    delayClamp w e = none ↔ w = none ∨ e = none := by
  cases w <;> cases e <;> simp [delayClamp]

/-- On non-null operands `delayClamp` is the clamped difference. -/
theorem delayClamp_some (w e : ℚ) :
    delayClamp (some w) (some e) = some (max (w - e) 0) := by
  simp only [delayClamp]
  rcases le_or_lt (w - e) 0 with h | h
  · rw [if_neg (not_lt.mpr h), max_eq_right h]
  · rw [if_pos h, max_eq_left h.le]

/-- The clamp `delayClamp` never returns a negative value. -/
theorem delayClamp_nonneg (w e : Option ℚ) (dv : ℚ)
    (h : delayClamp w e = some dv) : 0 ≤ dv := by
  cases w with
  | none => simp [delayClamp] at h
  | some wv =>
    cases e with
    | none => simp [delayClamp] at h
    | some ev =>
      simp only [delayClamp, Option.some_inj] at h
      subst h
      split_ifs with hpos
      · exact hpos.le
      · exact le_refl 0

/-- A null left operand gives a null day difference. -/
theorem diffDays_none_left (b : Option ℤ) : diffDays none b = none := by
  cases b <;> rfl

/-- A null right operand gives a null day difference. -/
theorem diffDays_none_right (a : Option ℤ) : diffDays a none = none := by
  cases a <;> rfl

/-- A null left operand gives a null clamped delay. -/
theorem delayClamp_none_left (e : Option ℚ) : delayClamp none e = none := by
  cases e <;> rfl

/-- A null right operand gives a null clamped delay. -/
theorem delayClamp_none_right (w : Option ℚ) : delayClamp w none = none := by
  cases w <;> rfl

/-! Claim theorems. -/

/-- C2: for every row produced by `Order.get_wait_time`, delay_vs_expected
is null iff wait_time or expected_wait_time is null; otherwise it equals
max(wait_time − expected_wait_time, 0); and it is never negative. -/
theorem C2_delay_vs_expected_policy (orders : List OrderRow) (b : Bool) (row : WaitRow)
    (h : row ∈ Order.get_wait_time orders b) :
    (row.delay_vs_expected = none ↔ (row.wait_time = none ∨ row.expected_wait_time = none)) ∧
    (∀ w e : ℚ, row.wait_time = some w → row.expected_wait_time = some e →
      row.delay_vs_expected = some (max (w - e) 0)) ∧
    (∀ dv : ℚ, row.delay_vs_expected = some dv → 0 ≤ dv) := by
  obtain ⟨r, -, rfl⟩ := List.mem_map.mp h
  refine ⟨delayClamp_eq_none_iff _ _, ?_, fun dv hdv => delayClamp_nonneg _ _ _ hdv⟩
  intro w e hw he
  simp only [waitRowOf] at hw he ⊢
  rw [hw, he, delayClamp_some]

/-- Witness for C2 on the sample data: the early order o1 gets the clamped
(zero) delay, which is non-negative. -/
theorem C2_delay_vs_expected_policy_witness :
    (waitRowOf exOrder1).delay_vs_expected =
      some (max ((((129600 - 0 : ℤ) : ℚ) / 86400) - (((172800 - 0 : ℤ) : ℚ) / 86400)) 0) ∧
    (0 : ℚ) ≤ max ((((129600 - 0 : ℤ) : ℚ) / 86400) - (((172800 - 0 : ℤ) : ℚ) / 86400)) 0 := by
  have h := C2_delay_vs_expected_policy exData.orders true (waitRowOf exOrder1)
    (List.mem_map_of_mem _ (by decide))
  exact ⟨h.2.1 _ _ rfl rfl, h.2.2 _ (h.2.1 _ _ rfl rfl)⟩

/-- C3: for every order record (surviving the status filter) with non-null
parseable delivered and purchase timestamps, the produced row has
wait_time = (delivered − purchased) seconds / 86400 exactly, and, when the
estimated timestamp also parses, expected_wait_time = (estimated −
purchased) seconds / 86400. -/
theorem C3_wait_time_exact_days (orders : List OrderRow) (b : Bool) (r : OrderRow)
    (hr : r ∈ (if b then orders.filter (fun o => o.order_status == "delivered") else orders))
    (dts pts : ℤ)
    (hd : to_datetime r.order_delivered_customer_date = some dts)
    (hp : to_datetime r.order_purchase_timestamp = some pts) :
    waitRowOf r ∈ Order.get_wait_time orders b ∧
    (waitRowOf r).wait_time = some (((dts - pts : ℤ) : ℚ) / 86400) ∧
    (∀ ets : ℤ, to_datetime r.order_estimated_delivery_date = some ets →
      (waitRowOf r).expected_wait_time = some (((ets - pts : ℤ) : ℚ) / 86400)) := by
  refine ⟨List.mem_map_of_mem _ hr, ?_, ?_⟩
  · simp only [waitRowOf, hd, hp, diffDays]
  · intro ets he
    simp only [waitRowOf, he, hp, diffDays]

/-- Witness for C3 on the sample data: o1 was delivered 129600 s after
purchase, i.e. in exactly 3/2 days. -/
theorem C3_wait_time_exact_days_witness :
    waitRowOf exOrder1 ∈ Order.get_wait_time exData.orders true ∧
    (waitRowOf exOrder1).wait_time = some (((129600 - 0 : ℤ) : ℚ) / 86400) := by
  have h := C3_wait_time_exact_days exData.orders true exOrder1 (by decide) 129600 0 rfl rfl
  exact ⟨h.1, h.2.1⟩

/-- C5: every row of `Order.get_review_score` has both indicator columns in
{0,1}, never both 1; the five-star indicator is 1 iff the score is 5, the
one-star indicator is 1 iff the score is 1, and any score outside 1–5
yields 0 for both. -/
theorem C5_review_indicator_policy (reviews : List ReviewRow) (row : ReviewFeature)
    (h : row ∈ Order.get_review_score reviews) :
    (row.dim_is_five_star = 0 ∨ row.dim_is_five_star = 1) ∧
    (row.dim_is_one_star = 0 ∨ row.dim_is_one_star = 1) ∧
    ¬(row.dim_is_five_star = 1 ∧ row.dim_is_one_star = 1) ∧
    (row.dim_is_five_star = 1 ↔ row.review_score = some 5) ∧
    (row.dim_is_one_star = 1 ↔ row.review_score = some 1) ∧
    (∀ q : ℚ, row.review_score = some q → (q < 1 ∨ 5 < q) →
      row.dim_is_five_star = 0 ∧ row.dim_is_one_star = 0) := by
  obtain ⟨r, -, rfl⟩ := List.mem_map.mp h
  simp only [reviewRowOf]
  refine ⟨?_, ?_, ?_, ?_, ?_, ?_⟩
  · split_ifs <;> simp
  · split_ifs <;> simp
  · split_ifs with h5 h1 <;> simp_all
  · split_ifs with h5 <;> simp [h5]
  · split_ifs with h1 <;> simp [h1]
  · intro q hq hrange
    have hq5 : ¬r.review_score = some 5 := by
      rw [hq]
      intro hc
      have h5 : q = 5 := Option.some_inj.mp hc
      subst h5
      rcases hrange with hlt | hgt
      · norm_num at hlt
      · norm_num at hgt
    have hq1 : ¬r.review_score = some 1 := by
      rw [hq]
      intro hc
      have h1 : q = 1 := Option.some_inj.mp hc
      subst h1
      rcases hrange with hlt | hgt
      · norm_num at hlt
      · norm_num at hgt
    rw [if_neg hq5, if_neg hq1]
    exact ⟨rfl, rfl⟩

/-- Witness for C5 on the sample data: the single five-star review. -/
theorem C5_review_indicator_policy_witness :
    (reviewRowOf { order_id := "o1", review_score := some 5 }).dim_is_five_star = 1 ∧
    ¬((reviewRowOf { order_id := "o1", review_score := some 5 }).dim_is_five_star = 1 ∧
      (reviewRowOf { order_id := "o1", review_score := some 5 }).dim_is_one_star = 1) := by
  have h := C5_review_indicator_policy exData.order_reviews
    (reviewRowOf { order_id := "o1", review_score := some 5 })
    (List.mem_map_of_mem _ (by decide))
  exact ⟨h.2.2.2.1.mpr rfl, h.2.2.1⟩

/-- C6: the wait-time extractor is total on malformed timestamps: a
malformed cell coerces to null, the affected derived columns of that row
are null, and the row is still produced (never an error). -/
theorem C6_malformed_timestamps_become_null (orders : List OrderRow) (b : Bool) (r : OrderRow)
    (hr : r ∈ (if b then orders.filter (fun o => o.order_status == "delivered") else orders)) :
    waitRowOf r ∈ Order.get_wait_time orders b ∧
    to_datetime RawTimestamp.malformed = none ∧
    (r.order_purchase_timestamp = RawTimestamp.malformed →
      (waitRowOf r).wait_time = none ∧ (waitRowOf r).expected_wait_time = none ∧
      (waitRowOf r).delay_vs_expected = none) ∧
    (r.order_delivered_customer_date = RawTimestamp.malformed →
      (waitRowOf r).wait_time = none ∧ (waitRowOf r).delay_vs_expected = none) ∧
    (r.order_estimated_delivery_date = RawTimestamp.malformed →
      (waitRowOf r).expected_wait_time = none ∧ (waitRowOf r).delay_vs_expected = none) := by
  refine ⟨List.mem_map_of_mem _ hr, rfl, ?_, ?_, ?_⟩
  · intro h
    simp [waitRowOf, h, to_datetime, diffDays_none_right, delayClamp_none_left]
  · intro h
    simp [waitRowOf, h, to_datetime, diffDays_none_left, delayClamp_none_left]
  · intro h
    simp [waitRowOf, h, to_datetime, diffDays_none_left, delayClamp_none_right]

/-- Witness for C6 on the sample data: o2 has a malformed delivered cell,
its row is produced with null wait_time and null delay. -/
theorem C6_malformed_timestamps_become_null_witness :
    waitRowOf exOrder2 ∈ Order.get_wait_time exData.orders true ∧
    (waitRowOf exOrder2).wait_time = none ∧
    (waitRowOf exOrder2).delay_vs_expected = none := by
  have h := C6_malformed_timestamps_become_null exData.orders true exOrder2 (by decide)
  exact ⟨h.1, h.2.2.2.1 rfl⟩

/-- C7: the columns of the assembler appear in the fixed documented order, with
distance_seller_customer appended as the last column exactly when the
with_distance_seller_customer flag is set. -/
theorem C7_output_column_order (d : Datasets) (hav : ℚ → ℚ → ℚ → ℚ → ℚ) (b w : Bool) :
    (Order.get_training_data d hav b w).cols =
      ["order_id", "wait_time", "expected_wait_time", "delay_vs_expected",
       "order_status", "dim_is_five_star", "dim_is_one_star", "review_score",
       "number_of_items", "number_of_sellers", "price", "freight_value"] ++
      (if w then ["distance_seller_customer"] else []) := by
  cases w <;> simp [Order.get_training_data, trainingCols]

/-- C9: the assembler is deterministic: two invocations on identical
dataset stores with identical flags return identical tables (same columns,
same rows, same row order). -/
theorem C9_assembler_deterministic (d₁ d₂ : Datasets) (hav : ℚ → ℚ → ℚ → ℚ → ℚ)
    (b w : Bool) (h : d₁ = d₂) :
    (Order.get_training_data d₁ hav b w).cols = (Order.get_training_data d₂ hav b w).cols ∧
    (Order.get_training_data d₁ hav b w).rows = (Order.get_training_data d₂ hav b w).rows := by
  rw [h]
  exact ⟨rfl, rfl⟩

/-- Witness for C9 on the sample data. -/
theorem C9_assembler_deterministic_witness :
    (Order.get_training_data exData exHav true false).cols =
      (Order.get_training_data exData exHav true false).cols ∧
    (Order.get_training_data exData exHav true false).rows =
      (Order.get_training_data exData exHav true false).rows :=
  C9_assembler_deterministic exData exData exHav true false rfl

/-- C8: for every order present in the item-line table, number_of_items is
the number of its item-line rows, and number_of_sellers (distinct sellers
over those rows) is at most number_of_items. -/
theorem C8_item_and_seller_counts (items : List ItemRow) (k : String)
    (hk : k ∈ items.map (fun i => i.order_id)) :
    ({ order_id := k,
       number_of_items := (items.filter (fun i => i.order_id == k)).length } : ItemCount)
      ∈ Order.get_number_items items ∧
    ∃ s : ℕ,
      ({ order_id := k, number_of_sellers := s } : SellerCount)
        ∈ Order.get_number_sellers items ∧
      s ≤ (items.filter (fun i => i.order_id == k)).length := by
  have hg : k ∈ groupKeys (items.map (fun i => i.order_id)) := mem_groupKeys.mpr hk
  refine ⟨List.mem_map_of_mem _ hg,
    ((items.filter (fun i => i.order_id == k)).map (fun i => i.seller_id)).dedup.length,
    List.mem_map_of_mem _ hg, ?_⟩
  calc ((items.filter (fun i => i.order_id == k)).map (fun i => i.seller_id)).dedup.length
      ≤ ((items.filter (fun i => i.order_id == k)).map (fun i => i.seller_id)).length :=
        (List.dedup_sublist _).length_le
    _ = (items.filter (fun i => i.order_id == k)).length := List.length_map _ _

/-- Witness for C8 on the sample data: order o1 has 2 item lines from 2
distinct sellers. -/
theorem C8_item_and_seller_counts_witness :
    ({ order_id := "o1",
       number_of_items :=
         (exData.order_items.filter (fun i => i.order_id == "o1")).length } : ItemCount)
      ∈ Order.get_number_items exData.order_items ∧
    ∃ s : ℕ,
      ({ order_id := "o1", number_of_sellers := s } : SellerCount)
        ∈ Order.get_number_sellers exData.order_items ∧
      s ≤ (exData.order_items.filter (fun i => i.order_id == "o1")).length :=
  C8_item_and_seller_counts exData.order_items "o1" (by decide)

/-- C4: in the distance extractor, every (order, item-line) row with any
null coordinate has a null distance, and each per-order result is the mean
of the non-null per-item-line distances of that order — null when they are
all null. -/
theorem C4_distance_null_policy (orders : List OrderRow) (customers : List CustomerRow)
    (sellers : List SellerRow) (items : List ItemRow) (geo : List GeoRow)
    (hav : ℚ → ℚ → ℚ → ℚ → ℚ) :
    (∀ r ∈ distanceRows orders customers sellers items geo hav,
      (r.seller_lng = none ∨ r.seller_lat = none ∨
       r.customer_lng = none ∨ r.customer_lat = none) →
      r.distance_km = none) ∧
    (∀ f ∈ Order.get_distance_seller_customer orders customers sellers items geo hav,
      f.distance_seller_customer =
        (let vs := (((distanceRows orders customers sellers items geo hav).filter
            (fun r => r.order_id == f.order_id)).map (fun r => r.distance_km)).filterMap id
         if vs = [] then none else some (vs.sum / vs.length))) := by
  constructor
  · intro r hr hnull
    obtain ⟨z, -, rfl⟩ := List.mem_map.mp hr
    rcases hsg : zipLookup (geoZipSummary geo) z.seller_zip with _ | sgeo <;>
      rcases hcg : zipLookup (geoZipSummary geo) z.customer_zip with _ | cgeo <;>
      simp_all
  · intro f hf
    obtain ⟨k, -, rfl⟩ := List.mem_map.mp hf
    rfl

/-- Witness for C4: with an empty geolocation table no zip resolves, each
item-line row of o1 has all-null coordinates and a null distance, and the
aggregated distance of o1 is null. -/
theorem C4_distance_null_policy_witness :
    ({ order_id := "o1", seller_lng := none, seller_lat := none,
       customer_lng := none, customer_lat := none, distance_km := none } : DistRow).distance_km
      = none ∧
    ({ order_id := "o1", distance_seller_customer := none } : DistanceFeature).distance_seller_customer
      = (let vs := (((distanceRows exData.orders exData.customers exData.sellers
            exData.order_items [] exHav).filter
            (fun r => r.order_id ==
              ({ order_id := "o1", distance_seller_customer := none } : DistanceFeature).order_id)).map
            (fun r => r.distance_km)).filterMap id
         if vs = [] then none else some (vs.sum / vs.length)) := by
  have h := C4_distance_null_policy exData.orders exData.customers exData.sellers
    exData.order_items [] exHav
  exact ⟨h.1 _ (by decide) (Or.inl rfl), h.2 _ (by decide)⟩

/-- With pairwise-distinct right keys, at most one right row matches any
given key value. -/
theorem length_filter_key_le_one {β : Type} (right : List β) (key : β → String)
    (hnd : (right.map key).Nodup) (x : String) :
    (right.filter (fun m => key m == x)).length ≤ 1 := by
  induction right with
  | nil => simp
  | cons m ms ih =>
    rw [List.map_cons, List.nodup_cons] at hnd
    rw [List.filter_cons]
    by_cases hm : (key m == x) = true
    · rw [if_pos hm]
      have hkm : key m = x := eq_of_beq hm
      have hnil : ms.filter (fun c => key c == x) = [] := by
        rw [List.filter_eq_nil_iff]
        intro c hc hcx
        apply hnd.1
        have h1 : key c = key m := by rw [eq_of_beq hcx, hkm]
        rw [← h1]
        exact List.mem_map_of_mem key hc
      rw [hnil]
      simp
    · rw [if_neg hm]
      exact ih hnd.2

/-- The number of rows carrying a given order_id through one left merge:
multiplied by the number of matching right rows, floored at one (a left row
without matches survives once, with null right columns). -/
theorem filter_length_leftMergeStep {β : Type} [DecidableEq β]
    (rows : List TrainingRow) (right : List β)
    (key : β → String) (upd : TrainingRow → β → TrainingRow)
    (hkey : ∀ t m, (upd t m).order_id = t.order_id) (oid : String) :
    ((leftMergeStep rows right key upd).filter (fun r => r.order_id == oid)).length =
      (rows.filter (fun r => r.order_id == oid)).length *
        max 1 (right.filter (fun m => key m == oid)).length := by
  induction rows with
  | nil => simp [leftMergeStep]
  | cons t ts ih =>
    simp only [leftMergeStep, List.flatMap_cons] at ih ⊢
    rw [List.filter_append, List.length_append, ih, List.filter_cons]
    by_cases ht : (t.order_id == oid) = true
    · have hoid : t.order_id = oid := eq_of_beq ht
      rw [if_pos ht, List.length_cons]
      by_cases hm : right.filter (fun m => key m == t.order_id) = []
      · rw [if_pos hm]
        have hmo : right.filter (fun m => key m == oid) = [] := by rw [← hoid]; exact hm
        rw [hmo, List.filter_cons, if_pos ht]
        simp
        ring
      · rw [if_neg hm]
        have hmo : right.filter (fun m => key m == oid) =
            right.filter (fun m => key m == t.order_id) := by rw [hoid]
        have hall : ((right.filter (fun m => key m == t.order_id)).map
            (upd t)).filter (fun r => r.order_id == oid) =
            (right.filter (fun m => key m == t.order_id)).map (upd t) := by
          rw [List.filter_eq_self]
          intro a ha
          obtain ⟨m, -, rfl⟩ := List.mem_map.mp ha
          rw [hkey]
          exact ht
        rw [hall, List.length_map, hmo]
        have hpos : 1 ≤ (right.filter (fun m => key m == t.order_id)).length :=
          List.length_pos.mpr hm
        rw [Nat.max_eq_right hpos]
        ring
    · rw [if_neg ht]
      by_cases hm : right.filter (fun m => key m == t.order_id) = []
      · rw [if_pos hm, List.filter_cons, if_neg ht]
        simp
      · rw [if_neg hm]
        have hnone : ((right.filter (fun m => key m == t.order_id)).map
            (upd t)).filter (fun r => r.order_id == oid) = [] := by
          rw [List.filter_eq_nil_iff]
          intro a ha
          obtain ⟨m, -, rfl⟩ := List.mem_map.mp ha
          rw [hkey]
          exact ht
        rw [hnone, List.length_nil]
        simp

/-- Viewing wait rows as training rows does not change the per-order_id
filter count. -/
theorem filter_length_liftWaitRow (ws : List WaitRow) (oid : String) :
    ((ws.map liftWaitRow).filter (fun r => r.order_id == oid)).length =
      (ws.filter (fun r => r.order_id == oid)).length := by
  rw [← List.countP_eq_length_filter, ← List.countP_eq_length_filter, List.countP_map]
  rfl

/-- The review extractor does not change the per-order_id filter count. -/
theorem filter_length_get_review_score (reviews : List ReviewRow) (oid : String) :
    ((Order.get_review_score reviews).filter (fun m => m.order_id == oid)).length =
      (reviews.filter (fun m => m.order_id == oid)).length := by
  rw [Order.get_review_score, ← List.countP_eq_length_filter, ← List.countP_eq_length_filter,
    List.countP_map]
  rfl

/-- Mapping a per-key row constructor and then reading the key column back
restores the key list. -/
theorem map_key_map_of_section {γ : Type} (f : String → γ) (key : γ → String)
    (hkf : ∀ k, key (f k) = k) (m : List String) :
    (m.map f).map key = m := by
  induction m with
  | nil => rfl
  | cons a as ihm => rw [List.map_cons, List.map_cons, hkf, ihm]

/-- The item-count table has one row per distinct order_id. -/
theorem nodup_keys_get_number_items (items : List ItemRow) :
    ((Order.get_number_items items).map (fun r => r.order_id)).Nodup := by
  rw [Order.get_number_items, map_key_map_of_section _ _ (fun _ => rfl)]
  exact nodup_groupKeys _

/-- The seller-count table has one row per distinct order_id. -/
theorem nodup_keys_get_number_sellers (items : List ItemRow) :
    ((Order.get_number_sellers items).map (fun r => r.order_id)).Nodup := by
  rw [Order.get_number_sellers, map_key_map_of_section _ _ (fun _ => rfl)]
  exact nodup_groupKeys _

/-- The price/freight table has one row per distinct order_id. -/
theorem nodup_keys_get_price_and_freight (items : List ItemRow) :
    ((Order.get_price_and_freight items).map (fun r => r.order_id)).Nodup := by
  rw [Order.get_price_and_freight, map_key_map_of_section _ _ (fun _ => rfl)]
  exact nodup_groupKeys _

/-- The distance table has one row per distinct order_id. -/
theorem nodup_keys_get_distance (orders : List OrderRow) (customers : List CustomerRow)
    (sellers : List SellerRow) (items : List ItemRow) (geo : List GeoRow)
    (hav : ℚ → ℚ → ℚ → ℚ → ℚ) :
    ((Order.get_distance_seller_customer orders customers sellers items geo hav).map
      (fun r => r.order_id)).Nodup := by
  rw [Order.get_distance_seller_customer, map_key_map_of_section _ _ (fun _ => rfl)]
  exact nodup_groupKeys _

/-- C1: every cell of every row returned by the assembler is non-null, for
both settings of each flag: every column present in the output is `isSome`
on every surviving row. -/
theorem C1_training_table_no_nulls (d : Datasets) (hav : ℚ → ℚ → ℚ → ℚ → ℚ)
    (b w : Bool) (r : TrainingRow)
    (hr : r ∈ (Order.get_training_data d hav b w).rows) :
    r.wait_time.isSome ∧ r.expected_wait_time.isSome ∧ r.delay_vs_expected.isSome ∧
    r.dim_is_five_star.isSome ∧ r.dim_is_one_star.isSome ∧ r.review_score.isSome ∧
    r.number_of_items.isSome ∧ r.number_of_sellers.isSome ∧ r.price.isSome ∧
    r.freight_value.isSome ∧ (w = true → r.distance_seller_customer.isSome) := by
  have hc : TrainingRow.complete w r = true := (List.mem_filter.mp hr).2
  simp only [TrainingRow.complete, Bool.and_eq_true] at hc
  obtain ⟨⟨⟨⟨⟨⟨⟨⟨⟨⟨h1, h2⟩, h3⟩, h4⟩, h5⟩, h6⟩, h7⟩, h8⟩, h9⟩, h10⟩, h11⟩ := hc
  refine ⟨h1, h2, h3, h4, h5, h6, h7, h8, h9, h10, ?_⟩
  intro hw
  subst hw
  simpa using h11

/-- Witness for C1: the sample pipeline keeps exactly the complete o1 row,
whose cells are all non-null. -/
theorem C1_training_table_no_nulls_witness :
    ((Order.get_training_data exData exHav true false).rows.head!).wait_time.isSome ∧
    ((Order.get_training_data exData exHav true false).rows.head!).expected_wait_time.isSome ∧
    ((Order.get_training_data exData exHav true false).rows.head!).delay_vs_expected.isSome ∧
    ((Order.get_training_data exData exHav true false).rows.head!).dim_is_five_star.isSome ∧
    ((Order.get_training_data exData exHav true false).rows.head!).dim_is_one_star.isSome ∧
    ((Order.get_training_data exData exHav true false).rows.head!).review_score.isSome ∧
    ((Order.get_training_data exData exHav true false).rows.head!).number_of_items.isSome ∧
    ((Order.get_training_data exData exHav true false).rows.head!).number_of_sellers.isSome ∧
    ((Order.get_training_data exData exHav true false).rows.head!).price.isSome ∧
    ((Order.get_training_data exData exHav true false).rows.head!).freight_value.isSome ∧
    (false = true →
      ((Order.get_training_data exData exHav true false).rows.head!).distance_seller_customer.isSome) :=
  C1_training_table_no_nulls exData exHav true false _ (List.head!_mem_self (by decide))


/-- Order_id count through the review merge of the assembler. -/
theorem filter_length_merge_reviews (rows : List TrainingRow) (right : List ReviewFeature)
    (oid : String) :
    ((leftMergeStep rows right (fun r => r.order_id)
        (fun t r => { t with dim_is_five_star := some r.dim_is_five_star
                             dim_is_one_star := some r.dim_is_one_star
                             review_score := r.review_score })).filter
      (fun r => r.order_id == oid)).length =
      (rows.filter (fun r => r.order_id == oid)).length *
        max 1 (right.filter (fun m => m.order_id == oid)).length := by
  apply filter_length_leftMergeStep
  intro t m
  rfl

/-- Order_id count through the item-count merge of the assembler. -/
theorem filter_length_merge_items (rows : List TrainingRow) (right : List ItemCount)
    (oid : String) :
    ((leftMergeStep rows right (fun r => r.order_id)
        (fun t r => { t with number_of_items := some r.number_of_items })).filter
      (fun r => r.order_id == oid)).length =
      (rows.filter (fun r => r.order_id == oid)).length *
        max 1 (right.filter (fun m => m.order_id == oid)).length := by
  apply filter_length_leftMergeStep
  intro t m
  rfl

/-- Order_id count through the seller-count merge of the assembler. -/
theorem filter_length_merge_sellers (rows : List TrainingRow) (right : List SellerCount)
    (oid : String) :
    ((leftMergeStep rows right (fun r => r.order_id)
        (fun t r => { t with number_of_sellers := some r.number_of_sellers })).filter
      (fun r => r.order_id == oid)).length =
      (rows.filter (fun r => r.order_id == oid)).length *
        max 1 (right.filter (fun m => m.order_id == oid)).length := by
  apply filter_length_leftMergeStep
  intro t m
  rfl

/-- Order_id count through the price/freight merge of the assembler. -/
theorem filter_length_merge_price (rows : List TrainingRow) (right : List PriceFreight)
    (oid : String) :
    ((leftMergeStep rows right (fun r => r.order_id)
        (fun t r => { t with price := some r.price
                             freight_value := some r.freight_value })).filter
      (fun r => r.order_id == oid)).length =
      (rows.filter (fun r => r.order_id == oid)).length *
        max 1 (right.filter (fun m => m.order_id == oid)).length := by
  apply filter_length_leftMergeStep
  intro t m
  rfl

/-- Order_id count through the optional distance merge of the assembler. -/
theorem filter_length_merge_distance (rows : List TrainingRow) (right : List DistanceFeature)
    (oid : String) :
    ((leftMergeStep rows right (fun r => r.order_id)
        (fun t r => { t with distance_seller_customer := r.distance_seller_customer })).filter
      (fun r => r.order_id == oid)).length =
      (rows.filter (fun r => r.order_id == oid)).length *
        max 1 (right.filter (fun m => m.order_id == oid)).length := by
  apply filter_length_leftMergeStep
  intro t m
  rfl

/-- C10: the review extractor emits one output row per input review row
(no deduplication), so an order backed by k matching review rows is
multiplied by the review left join into (its wait-row count) × k rows of
the assembled frame, and — when all those rows are complete — of the final
training table as well. -/
theorem C10_duplicate_reviews_multiply_rows (d : Datasets) (hav : ℚ → ℚ → ℚ → ℚ → ℚ)
    (b w : Bool) (oid : String)
    (hk : 1 ≤ (d.order_reviews.filter (fun r => r.order_id == oid)).length) :
    (Order.get_review_score d.order_reviews).length = d.order_reviews.length ∧
    ((assembledRows d hav b w).filter (fun r => r.order_id == oid)).length =
      ((Order.get_wait_time d.orders b).filter (fun r => r.order_id == oid)).length *
        (d.order_reviews.filter (fun r => r.order_id == oid)).length ∧
    ((∀ r ∈ assembledRows d hav b w, r.order_id = oid → TrainingRow.complete w r = true) →
      ((Order.get_training_data d hav b w).rows.filter (fun r => r.order_id == oid)).length =
        ((Order.get_wait_time d.orders b).filter (fun r => r.order_id == oid)).length *
          (d.order_reviews.filter (fun r => r.order_id == oid)).length) := by
  have hrev1 : 1 ≤ ((Order.get_review_score d.order_reviews).filter
      (fun m => m.order_id == oid)).length := by
    rw [filter_length_get_review_score]
    exact hk
  have hitems := length_filter_key_le_one _ _ (nodup_keys_get_number_items d.order_items) oid
  have hsellers := length_filter_key_le_one _ _ (nodup_keys_get_number_sellers d.order_items) oid
  have hpf := length_filter_key_le_one _ _ (nodup_keys_get_price_and_freight d.order_items) oid
  have hdist := length_filter_key_le_one _ _
    (nodup_keys_get_distance d.orders d.customers d.sellers d.order_items d.geolocation hav) oid
  have hmain : ((assembledRows d hav b w).filter (fun r => r.order_id == oid)).length =
      ((Order.get_wait_time d.orders b).filter (fun r => r.order_id == oid)).length *
        (d.order_reviews.filter (fun r => r.order_id == oid)).length := by
    cases w
    · simp only [assembledRows, Bool.false_eq_true, if_false]
      rw [filter_length_merge_price, filter_length_merge_sellers, filter_length_merge_items,
        filter_length_merge_reviews]
      rw [filter_length_liftWaitRow, Nat.max_eq_right hrev1, filter_length_get_review_score,
        Nat.max_eq_left hitems, Nat.max_eq_left hsellers, Nat.max_eq_left hpf]
      ring
    · simp only [assembledRows, if_true]
      rw [filter_length_merge_distance, filter_length_merge_price, filter_length_merge_sellers,
        filter_length_merge_items, filter_length_merge_reviews]
      rw [filter_length_liftWaitRow, Nat.max_eq_right hrev1, filter_length_get_review_score,
        Nat.max_eq_left hitems, Nat.max_eq_left hsellers, Nat.max_eq_left hpf,
        Nat.max_eq_left hdist]
      ring
  refine ⟨by rw [Order.get_review_score, List.length_map], hmain, ?_⟩
  intro hcomp
  have hdouble : ((Order.get_training_data d hav b w).rows.filter
      (fun r => r.order_id == oid)).length =
      ((assembledRows d hav b w).filter (fun r => r.order_id == oid)).length := by
    show (((assembledRows d hav b w).filter (TrainingRow.complete w)).filter
      (fun r => r.order_id == oid)).length = _
    rw [← List.countP_eq_length_filter, ← List.countP_eq_length_filter, List.countP_filter]
    apply List.countP_congr
    intro a ha
    by_cases hao : (a.order_id == oid) = true
    · simp [hao, hcomp a ha (eq_of_beq hao)]
    · simp [hao]
  rw [hdouble, hmain]

/-- Witness for C10: with two reviews for o1, the sample assembled frame
holds o1 twice. -/
theorem C10_duplicate_reviews_multiply_rows_witness :
    (Order.get_review_score exDataDup.order_reviews).length = exDataDup.order_reviews.length ∧
    ((assembledRows exDataDup exHav true false).filter (fun r => r.order_id == "o1")).length =
      ((Order.get_wait_time exDataDup.orders true).filter
        (fun r => r.order_id == "o1")).length *
        (exDataDup.order_reviews.filter (fun r => r.order_id == "o1")).length ∧
    ((∀ r ∈ assembledRows exDataDup exHav true false, r.order_id = "o1" →
        TrainingRow.complete false r = true) →
      ((Order.get_training_data exDataDup exHav true false).rows.filter
        (fun r => r.order_id == "o1")).length =
        ((Order.get_wait_time exDataDup.orders true).filter
          (fun r => r.order_id == "o1")).length *
          (exDataDup.order_reviews.filter (fun r => r.order_id == "o1")).length) :=
  C10_duplicate_reviews_multiply_rows exDataDup exHav true false "o1" (by decide)

end Olist
